import Mathlib

/-!
# Verification of `src/deploy.py` (CloudFormation deployment helper)

Shallow embedding of the deployment lifecycle controller in `src/deploy.py`.
Remote-service behaviour (CloudFormation describe/create/update/delete calls,
the boto3 waiter, S3 cleanup, the interactive confirmation input) is supplied
as explicit environment values; each command is embedded as a pure function
from its environment to the trace of observable events (remote mutating calls
and printed messages) together with the process outcome (a `sys.exit` code, a
normal return, or an uncaught exception).
-/

namespace DeployPy

/-! ## Static configuration (lines 25-50 of deploy.py) -/

def STACK_NAME : String := "gsi-export-test"

def PARAMETERS : List (String × String) :=
  [ ("DynamoTableName",          "ConnectViewDataTest"),
    ("GsiName",                  "Channel-InitiationTimestamp-index"),
    ("GsiPartitionKeyAttribute", "Channel"),
    ("GsiPartitionKeyValue",     "CHAT"),
    ("GsiSortKeyAttribute",      "InitiationTimestamp"),
    ("DateFormat",               "ISO"),
    ("S3DataPrefix",             "exports"),
    ("CronExpression",           "rate(1 day)"),
    ("DateRangeMode",            "PREVIOUS_DAY"),
    ("CreateTable",              "true"),
    ("TablePKName",              "ContactId"),
    ("TablePKType",              "S"),
    ("BillingMode",              "PAY_PER_REQUEST"),
    ("ExtraDateColumn",          "report_date") ]

/-! ## Python primitives used by the script -/

/-- Python `dict` assignment `d[k] = v`: replace the value if the key is
present, otherwise append the new binding (insertion order preserved). -/
def dictSet (d : List (String × String)) (k v : String) : List (String × String) :=
  if d.any (fun p => p.1 = k) then
    d.map (fun p => if p.1 = k then (k, v) else p)
  else
    d ++ [(k, v)]

/-- The whitespace set stripped by Python `str.strip()`. -/
def pyIsSpace (c : Char) : Bool :=
  c = ' ' || c = '\t' || c = '\n' || c = '\r' || c = '\x0b' || c = '\x0c'

/-- Python `str.strip()`: drop whitespace from both ends. -/
def pyStrip (s : String) : String :=
  ⟨((s.data.dropWhile pyIsSpace).reverse.dropWhile pyIsSpace).reverse⟩

/-- Python `str.lower()` (restricted to the ASCII letters that occur in the
confirmation tokens of interest). -/
def pyLower (s : String) : String :=
  ⟨s.data.map Char.toLower⟩

/-- Python truthiness of `outputs.get(key)`: `None` (absent key) and the empty
string are falsy; any other string is truthy. -/
def lookupTruthy (outs : List (String × String)) (k : String) : Option String :=
  match outs.lookup k with
  | some v => if v = "" then none else some v
  | none => none

/-! ## Remote-service behaviour supplied by the environment -/

/-- Outcome of a `describe_stacks(StackName=...)` call: either a stack record
(its `StackStatus` and `Outputs`), a `ClientError` whose text contains
`"does not exist"`, or any other `ClientError`. -/
inductive DescribeResult where
  | found (status : String) (outputs : List (String × String))
  | notFoundError
  | otherError
  deriving DecidableEq, Repr

/-- One poll of the boto3 waiter: the stack has reached the waiter's success
state, has reached a failure state (the waiter raises), or is still in
progress. -/
inductive PollStatus where
  | success
  | failure
  | pending
  deriving DecidableEq, Repr

/-- Outcome of the `update_stack` call: accepted, a `ClientError` containing
`"No updates are to be performed"`, or any other `ClientError`. -/
inductive UpdateOutcome where
  | ok
  | noUpdates
  | otherError
  deriving DecidableEq, Repr

/-- Outcome of a remote call that the script does not guard with `try`:
it either succeeds or raises. -/
inductive CallOutcome where
  | ok
  | raised
  deriving DecidableEq, Repr

/-! ## Observable events and process outcome -/

/-- Observable events of one command invocation: remote mutating calls and the
messages the script prints. -/
inductive Event where
  | createStack
  | updateStack
  | deleteStack
  | emptyBucket (bucket : String)
  | deleteWorkGroup (wg : String)
  | msgStagingBucketExists
  | msgStagingBucketCreating
  | msgUploadingTemplate
  | msgAborted
  | msgStackDoesNotExist
  | msgGenericError
  | msgNoOutputs
  | msgOutputsListing
  | msgDashboardURL (url : String)
  | msgNoChanges
  | msgStatusInfo (status : String)
  | msgDeploySuccess
  | msgDeployFailed
  | msgDeleteSuccess
  | msgDeleteMaybeFailed
  | msgCleanupWarning
  | msgUsage
  deriving DecidableEq, Repr

/-- How the process ends: `exited c` for a normal end of `main` or an explicit
`sys.exit(c)`; `uncaught` for an exception that propagates out of the command
(CPython then exits with code 1 after printing a traceback). -/
inductive Outcome where
  | exited (code : Nat)
  | uncaught
  deriving DecidableEq, Repr

/-- The process exit code an `Outcome` produces. -/
def exitCodeOf : Outcome → Nat
  | .exited c => c
  | .uncaught => 1

/-- Is the event one of the three mutating stack calls? -/
def isMutating : Event → Bool
  | .createStack => true
  | .updateStack => true
  | .deleteStack => true
  | _ => false

/-! ## Helpers of deploy.py -/

/-- `build_params()` (lines 96-105): copy `PARAMETERS`, set `S3BucketName` to
the override when it is truthy and to `"<stack>-<account-id>"` otherwise.
The globals `S3_BUCKET_NAME` and `get_account_id()` are passed as the
arguments `s3BucketName` and `accountId`. -/
def build_params (s3BucketName accountId : String) : List (String × String) :=
  if s3BucketName ≠ "" then
    dictSet PARAMETERS "S3BucketName" s3BucketName
  else
    dictSet PARAMETERS "S3BucketName" (STACK_NAME ++ "-" ++ accountId)

/-- `stack_exists(cfn)` (lines 108-116): describe the stack; on success the
result is `status not in ("DELETE_COMPLETE",)`; a `ClientError` containing
`"does not exist"` yields `False`; any other `ClientError` is re-raised
(`Except.error`). -/
def stack_exists : DescribeResult → Except Unit Bool
  | .found status _ => .ok (decide (status ∉ ["DELETE_COMPLETE"]))
  | .notFoundError => .ok false
  | .otherError => .error ()

/-- `WaiterConfig` delay in seconds (line 125). -/
def POLL_DELAY : Nat := 10

/-- `WaiterConfig` maximum attempt count (line 125). -/
def MAX_ATTEMPTS : Nat := 120

/-- The boto3 waiter loop: poll `statusAt` once per attempt starting at
attempt index `i` with `fuel` attempts remaining; return the index one past
the last attempt made, and whether the waiter succeeded (exhausting the
attempts or hitting a failure state raises `WaiterError`, i.e. `false`). -/
def runWaiter (statusAt : Nat → PollStatus) : Nat → Nat → Nat × Bool
  | 0, i => (i, false)
  | fuel + 1, i =>
    match statusAt i with
    | .success => (i + 1, true)
    | .failure => (i + 1, false)
    | .pending => runWaiter statusAt fuel (i + 1)

/-- `wait_for_stack(cfn, waiter_name)` (lines 119-131): run the waiter with
`Delay := POLL_DELAY, MaxAttempts := MAX_ATTEMPTS`; `True` when it completes,
`False` when it raises (failure state or attempts exhausted). -/
def wait_for_stack (statusAt : Nat → PollStatus) : Bool :=
  (runWaiter statusAt MAX_ATTEMPTS 0).2

/-- Number of waiter attempts actually made by `wait_for_stack`. -/
def waiterAttempts (statusAt : Nat → PollStatus) : Nat :=
  (runWaiter statusAt MAX_ATTEMPTS 0).1

/-- The lines printed by the body of `print_outputs` on a successful describe
(lines 137-149): a no-outputs note for an empty list, otherwise the outputs
listing plus a highlighted dashboard URL for each `ReportDashboardURL` key. -/
def outputsEvents (outputs : List (String × String)) : List Event :=
  if outputs.isEmpty then
    [.msgNoOutputs]
  else
    .msgOutputsListing ::
      outputs.filterMap (fun o =>
        if o.1 = "ReportDashboardURL" then some (Event.msgDashboardURL o.2) else none)

/-- `print_outputs(cfn)` (lines 134-151): print the outputs of a successful
describe; ANY `ClientError` — the not-found one included — is caught by the
single `except ClientError` clause and printed as the generic
`"  Error: {e}"` line. -/
def print_outputs : DescribeResult → List Event
  | .found _ outputs => outputsEvents outputs
  | .notFoundError => [.msgGenericError]
  | .otherError => [.msgGenericError]

/-- `print_status(cfn)` (lines 154-166): print name/status on success; a
`ClientError` containing `"does not exist"` prints the friendly
`"Stack '...' does not exist."` line, any other `ClientError` the generic
`"  Error: {e}"` line. -/
def print_status : DescribeResult → List Event
  | .found status _ => [.msgStatusInfo status]
  | .notFoundError => [.msgStackDoesNotExist]
  | .otherError => [.msgGenericError]

/-! ## cmd_deploy -/

/-- Environment of the stack-mutation part of one `cmd_deploy` invocation
(lines 182-216): the describe result seen by `stack_exists`, the outcomes of
the mutating calls, the waiter's poll stream, and the describe result seen by
the final `print_outputs`/`print_status`. The unguarded prelude calls of
lines 174-180 (account-id fetch, staging bucket, template upload) are modeled
by `FullDeployEnv`/`cmd_deploy_full` below, which runs `cmd_deploy` once the
prelude has succeeded. -/
structure DeployEnv where
  describeRes : DescribeResult
  updateRes : UpdateOutcome
  createRes : CallOutcome
  poll : Nat → PollStatus
  finalDescribe : DescribeResult

/-- Lines 210-216 of `cmd_deploy`: on waiter success print the success banner
and the outputs (exit 0 by falling out of `main`); on waiter failure print the
failure banner and the status, then `sys.exit(1)`. -/
def deployTail (env : DeployEnv) (pre : List Event) (success : Bool) :
    List Event × Outcome :=
  if success then
    (pre ++ [.msgDeploySuccess] ++ print_outputs env.finalDescribe, .exited 0)
  else
    (pre ++ [.msgDeployFailed] ++ print_status env.finalDescribe, .exited 1)

/-- `cmd_deploy()` from the existence check on (lines 182-216, reached when
the prelude of lines 174-180 succeeded — see `cmd_deploy_full`): check
existence (an unexpected describe error propagates), then update (a
`"No updates are to be performed"` error is the success path printing
outputs; any other update error is re-raised) or create, then wait and
report. -/
def cmd_deploy (env : DeployEnv) : List Event × Outcome :=
  match stack_exists env.describeRes with
  | .error _ => ([], .uncaught)
  | .ok true =>
    match env.updateRes with
    | .noUpdates =>
      ([.updateStack, .msgNoChanges] ++ print_outputs env.finalDescribe, .exited 0)
    | .otherError => ([.updateStack], .uncaught)
    | .ok => deployTail env [.updateStack] (wait_for_stack env.poll)
  | .ok false =>
    match env.createRes with
    | .raised => ([.createStack], .uncaught)
    | .ok => deployTail env [.createStack] (wait_for_stack env.poll)

/-! ## cmd_delete -/

/-- Environment of one `cmd_delete` invocation: the describe result seen by
`stack_exists`, the raw confirmation input, the cleanup-time describe
(`none` when `describe_stacks` inside the first `try` raises, otherwise the
outputs dictionary), which bucket-emptying calls raise, whether the workgroup
deletion raises, and the waiter's poll stream. The unguarded
`cfn.delete_stack` call of line 258 is given its raise outcome by
`FullDeleteEnv`/`cmd_delete_full` below; `cmd_delete` models the invocations
on which that call succeeds. -/
structure DeleteEnv where
  describeRes : DescribeResult
  confirmInput : String
  cleanupDescribe : Option (List (String × String))
  emptyFails : String → Bool
  workgroupFails : Bool
  poll : Nat → PollStatus

/-- The bucket-emptying `for` loop (lines 238-243) over the output keys in
order: emptying a truthy bucket emits its event; a raised emptying call aborts
the rest of the loop (the whole `try` block), returning `false`. -/
def emptyBuckets (outs : List (String × String)) (emptyFails : String → Bool) :
    List String → List Event × Bool
  | [] => ([], true)
  | k :: ks =>
    match lookupTruthy outs k with
    | some b =>
      if emptyFails b then
        ([.emptyBucket b], false)
      else
        let r := emptyBuckets outs emptyFails ks
        (.emptyBucket b :: r.1, r.2)
    | none => emptyBuckets outs emptyFails ks

/-- First cleanup `try` block (lines 233-245): describe the stack, build the
outputs dictionary, empty the two data buckets; any raised step ends in the
`except` printing the warning. -/
def cleanupBuckets (env : DeleteEnv) : List Event :=
  match env.cleanupDescribe with
  | none => [.msgCleanupWarning]
  | some outs =>
    let r := emptyBuckets outs env.emptyFails ["ExportDataBucket", "AthenaResultsBucket"]
    if r.2 then r.1 else r.1 ++ [.msgCleanupWarning]

/-- Second cleanup `try` block (lines 248-256): read `outputs` — a `NameError`
when the first block's describe raised before binding it, caught by this
block's own `except` — and delete a truthy `AthenaWorkgroup` output, a raised
deletion again ending in the warning. -/
def cleanupWorkgroup (env : DeleteEnv) : List Event :=
  match env.cleanupDescribe with
  | none => [.msgCleanupWarning]
  | some outs =>
    match lookupTruthy outs "AthenaWorkgroup" with
    | some wg =>
      .deleteWorkGroup wg :: (if env.workgroupFails then [.msgCleanupWarning] else [])
    | none => []

/-- `cmd_delete()` (lines 219-263) on invocations where the `delete_stack`
call itself succeeds (its raise outcome is added by `cmd_delete_full`):
existence check (unexpected describe error propagates; absent stack prints
the friendly line and returns), confirmation stripped and lowercased against
`"yes"` (otherwise print `Aborted.` and return), best-effort cleanup, then
`delete_stack` and the waiter; both waiter outcomes return normally
(exit 0). -/
def cmd_delete (env : DeleteEnv) : List Event × Outcome :=
  match stack_exists env.describeRes with
  | .error _ => ([], .uncaught)
  | .ok false => ([.msgStackDoesNotExist], .exited 0)
  | .ok true =>
    if pyLower (pyStrip env.confirmInput) ≠ "yes" then
      ([.msgAborted], .exited 0)
    else
      let es := cleanupBuckets env ++ cleanupWorkgroup env ++ [.deleteStack]
      if wait_for_stack env.poll then
        (es ++ [.msgDeleteSuccess], .exited 0)
      else
        (es ++ [.msgDeleteMaybeFailed], .exited 0)

/-! ## Main dispatch -/

/-- One process invocation: the chosen subcommand with its environment, or a
missing/unrecognised subcommand argument. -/
inductive Invocation where
  | deploy (env : DeployEnv)
  | delete (env : DeleteEnv)
  | outputs (d : DescribeResult)
  | status (d : DescribeResult)
  | badCommand

/-- `__main__` (lines 287-297): a missing or invalid subcommand prints the
usage text and exits 1; otherwise the command runs and the process exits 0
unless the command itself exits or raises. -/
def runMain : Invocation → List Event × Outcome
  | .badCommand => ([.msgUsage], .exited 1)
  | .deploy env => cmd_deploy env
  | .delete env => cmd_delete env
  | .outputs d => (print_outputs d, .exited 0)
  | .status d => (print_status d, .exited 0)

/-! ## Full model: the unguarded remote calls can also raise

`cmd_deploy` and `cmd_delete` above model the invocations on which the
script's unguarded prelude and delete calls succeed. The full model below
additionally gives a raise outcome to every remote or filesystem call the
script leaves unguarded: `get_caller_identity` at both of its call sites
(lines 61, 77 via `get_staging_bucket`, and line 101 inside `build_params`),
`create_bucket` (line 85, reached when `head_bucket` raised), the template
`open`/`put_object` (lines 91-92), and `cfn.delete_stack` (line 258).
boto3 client construction and `input()` are still taken as total. -/

/-- Did the unguarded call raise? -/
def CallOutcome.isRaised : CallOutcome → Bool
  | .raised => true
  | .ok => false

/-- Full environment of one `cmd_deploy` invocation: the base environment of
lines 182-216 plus an outcome for each unguarded prelude call of lines
174-180 — the account-id fetch behind `get_staging_bucket` (line 177), the
`head_bucket` probe (caught: `false` means it raised and the create path is
taken), the `create_bucket` call, the template upload (`open` plus
`put_object`), and the account-id fetch inside `build_params` (line 180
calling line 101). -/
structure FullDeployEnv where
  base : DeployEnv
  accountIdStagingRes : CallOutcome
  stagingHeadOk : Bool
  stagingCreateRes : CallOutcome
  uploadRes : CallOutcome
  accountIdParamsRes : CallOutcome

/-- Lines 174-180 of `cmd_deploy` in order: account-id fetch, staging-bucket
check/create (`ensure_staging_bucket`, whose `head_bucket` failure is caught
and answered with `create_bucket`), template upload, parameter assembly.
Returns the events printed before the first raise, and whether the whole
prelude succeeded. -/
def deployPrelude (env : FullDeployEnv) : List Event × Bool :=
  if env.accountIdStagingRes.isRaised then
    ([], false)
  else
    let es1 := if env.stagingHeadOk then [Event.msgStagingBucketExists]
               else [Event.msgStagingBucketCreating]
    if !env.stagingHeadOk && env.stagingCreateRes.isRaised then
      (es1, false)
    else if env.uploadRes.isRaised then
      (es1 ++ [Event.msgUploadingTemplate], false)
    else if env.accountIdParamsRes.isRaised then
      (es1 ++ [Event.msgUploadingTemplate], false)
    else
      (es1 ++ [Event.msgUploadingTemplate], true)

/-- `cmd_deploy()` in full (lines 173-216): a raise in the prelude propagates
uncaught; otherwise the invocation continues as `cmd_deploy`. -/
def cmd_deploy_full (env : FullDeployEnv) : List Event × Outcome :=
  let p := deployPrelude env
  if p.2 then
    let r := cmd_deploy env.base
    (p.1 ++ r.1, r.2)
  else
    (p.1, Outcome.uncaught)

/-- Full environment of one `cmd_delete` invocation: the base environment
plus the outcome of the unguarded `cfn.delete_stack` call of line 258. -/
structure FullDeleteEnv where
  base : DeleteEnv
  deleteStackRes : CallOutcome

/-- `cmd_delete()` in full (lines 219-263): as `cmd_delete`, except that the
`delete_stack` call is issued and may itself raise, in which case the
exception propagates uncaught and the waiter is never reached. -/
def cmd_delete_full (env : FullDeleteEnv) : List Event × Outcome :=
  match stack_exists env.base.describeRes with
  | .error _ => ([], .uncaught)
  | .ok false => ([.msgStackDoesNotExist], .exited 0)
  | .ok true =>
    if pyLower (pyStrip env.base.confirmInput) ≠ "yes" then
      ([.msgAborted], .exited 0)
    else
      let es := cleanupBuckets env.base ++ cleanupWorkgroup env.base ++ [Event.deleteStack]
      match env.deleteStackRes with
      | .raised => (es, .uncaught)
      | .ok =>
        if wait_for_stack env.base.poll then
          (es ++ [.msgDeleteSuccess], .exited 0)
        else
          (es ++ [.msgDeleteMaybeFailed], .exited 0)

/-- One process invocation in the full model. -/
inductive FullInvocation where
  | deploy (env : FullDeployEnv)
  | delete (env : FullDeleteEnv)
  | outputs (d : DescribeResult)
  | status (d : DescribeResult)
  | badCommand

/-- `__main__` over the full command models. -/
def runMainFull : FullInvocation → List Event × Outcome
  | .badCommand => ([.msgUsage], .exited 1)
  | .deploy env => cmd_deploy_full env
  | .delete env => cmd_delete_full env
  | .outputs d => (print_outputs d, .exited 0)
  | .status d => (print_status d, .exited 0)

/-! ## Helper lemmas -/

lemma mem_outputsEvents (outs : List (String × String)) (e : Event)
    (he : e ∈ outputsEvents outs) :
    e = .msgNoOutputs ∨ e = .msgOutputsListing ∨ ∃ u, e = .msgDashboardURL u := by
  unfold outputsEvents at he
  split at he
  · simp only [List.mem_singleton] at he
    exact Or.inl he
  · rcases List.mem_cons.mp he with h | h
    · exact Or.inr (Or.inl h)
    · rcases List.mem_filterMap.mp h with ⟨a, _, ha⟩
      split at ha
      · rcases Option.some.inj ha with rfl
        exact Or.inr (Or.inr ⟨a.2, rfl⟩)
      · simp at ha

lemma not_mem_print_outputs (d : DescribeResult) (e : Event)
    (he : isMutating e = true) : e ∉ print_outputs d := by
  intro hm
  cases d with
  | found s outs =>
    have hm' : e ∈ outputsEvents outs := hm
    rcases mem_outputsEvents outs e hm' with h | h | ⟨u, h⟩ <;>
      subst h <;> simp [isMutating] at he
  | notFoundError =>
    simp only [print_outputs, List.mem_singleton] at hm
    subst hm
    simp [isMutating] at he
  | otherError =>
    simp only [print_outputs, List.mem_singleton] at hm
    subst hm
    simp [isMutating] at he

lemma not_mem_print_status (d : DescribeResult) (e : Event)
    (he : isMutating e = true) : e ∉ print_status d := by
  intro hm
  cases d <;> simp only [print_status, List.mem_singleton] at hm <;>
    subst hm <;> simp [isMutating] at he

lemma runWaiter_pending (statusAt : Nat → PollStatus)
    (hp : ∀ i, statusAt i = .pending) :
    ∀ fuel i, runWaiter statusAt fuel i = (i + fuel, false) := by
  intro fuel
  induction fuel with
  | zero => intro i; simp [runWaiter]
  | succ n ih =>
    intro i
    have h1 : runWaiter statusAt (n + 1) i = runWaiter statusAt n (i + 1) := by
      simp [runWaiter, hp i]
    rw [h1, ih (i + 1)]
    congr 1
    omega

lemma runWaiter_attempts_le (statusAt : Nat → PollStatus) :
    ∀ fuel i, (runWaiter statusAt fuel i).1 ≤ i + fuel := by
  intro fuel
  induction fuel with
  | zero => intro i; simp [runWaiter]
  | succ n ih =>
    intro i
    cases h : statusAt i with
    | success => simp only [runWaiter, h]; omega
    | failure => simp only [runWaiter, h]; omega
    | pending =>
      have h2 := ih (i + 1)
      simp only [runWaiter, h]
      omega

lemma count_msg_singleton (e m : Event) (he : isMutating e = true)
    (hm : isMutating m = false) : [m].count e = 0 := by
  apply List.count_eq_zero.mpr
  intro hmem
  simp only [List.mem_singleton] at hmem
  subst hmem
  simp [he] at hm

lemma count_deployTail (env : DeployEnv) (pre : List Event) (s : Bool) (e : Event)
    (he : isMutating e = true) :
    (deployTail env pre s).1.count e = pre.count e := by
  have c3 : List.count e (Event.msgDeploySuccess :: print_outputs env.finalDescribe) = 0 := by
    apply List.count_eq_zero.mpr
    intro hm
    rcases List.mem_cons.mp hm with hq | hq
    · subst hq; simp [isMutating] at he
    · exact not_mem_print_outputs env.finalDescribe e he hq
  have c4 : List.count e (Event.msgDeployFailed :: print_status env.finalDescribe) = 0 := by
    apply List.count_eq_zero.mpr
    intro hm
    rcases List.mem_cons.mp hm with hq | hq
    · subst hq; simp [isMutating] at he
    · exact not_mem_print_status env.finalDescribe e he hq
  cases s <;> simp [deployTail, List.count_append, c3, c4]

/-! ## Claims -/

/-- C7: with no bucket override configured the effective parameter set binds
`S3BucketName` to the stack name, a hyphen, and the caller account id; with an
override configured (a truthy, i.e. nonempty, override string) the override
value is used instead. -/
theorem build_params_s3_bucket_name (accountId o : String) (ho : o ≠ "") :
    (build_params "" accountId).lookup "S3BucketName"
        = some (STACK_NAME ++ "-" ++ accountId)
    ∧ (build_params o accountId).lookup "S3BucketName" = some o := by
  constructor
  · rfl
  · have h1 : build_params o accountId = dictSet PARAMETERS "S3BucketName" o := by
      simp [build_params, ho]
    rw [h1]
    rfl

/-- Witness for C7: account id `"123456789012"` yields the bucket name
`"gsi-export-test-123456789012"`, and an override is passed through. -/
theorem build_params_s3_bucket_name_witness :
    (build_params "" "123456789012").lookup "S3BucketName"
        = some "gsi-export-test-123456789012"
    ∧ (build_params "my-override-bucket" "123456789012").lookup "S3BucketName"
        = some "my-override-bucket" := by
  have h := build_params_s3_bucket_name "123456789012" "my-override-bucket" (by decide)
  exact ⟨by rw [h.1]; rfl, h.2⟩

/-- C4 counterexample: in the `outputs` read path the not-found describe error
is NOT surfaced distinctly — `print_outputs` prints the same generic
`Error:` line for the not-found error as for any other query error. -/
theorem outputs_notfound_not_distinct_counterexample :
    print_outputs DescribeResult.notFoundError = [Event.msgGenericError]
    ∧ print_outputs DescribeResult.notFoundError
        = print_outputs DescribeResult.otherError :=
  ⟨rfl, rfl⟩

/-- C4 amended: the `status` read path surfaces the not-found outcome
distinctly with a friendly message; the `outputs` read path catches it but
prints the same generic error line as any other query error (no crash in
either path); and the existence check maps it to the boolean `false`, not an
exception. -/
theorem read_path_notfound_behaviour :
    print_status DescribeResult.notFoundError = [Event.msgStackDoesNotExist]
    ∧ print_status DescribeResult.notFoundError ≠ print_status DescribeResult.otherError
    ∧ print_outputs DescribeResult.notFoundError = [Event.msgGenericError]
    ∧ stack_exists DescribeResult.notFoundError = Except.ok false := by
  refine ⟨rfl, ?_, rfl, rfl⟩
  decide

/-- Concrete deploy environment whose existence-check describe reports status
`DELETE_COMPLETE`. -/
def envC9 : DeployEnv :=
  { describeRes := .found "DELETE_COMPLETE" []
    updateRes := .ok
    createRes := .ok
    poll := fun _ => .success
    finalDescribe := .found "CREATE_COMPLETE" [] }

/-- C9: a successfully described stack with status `DELETE_COMPLETE` is
treated as non-existent (the check returns `false`, and a deploy against it
issues the create call and not the update call); any other successfully
described status makes the check return `true`. -/
theorem stack_exists_delete_complete (status : String)
    (outs : List (String × String)) (env : DeployEnv)
    (henv : env.describeRes = DescribeResult.found "DELETE_COMPLETE" outs)
    (hst : status ≠ "DELETE_COMPLETE") :
    stack_exists (DescribeResult.found "DELETE_COMPLETE" outs) = Except.ok false
    ∧ stack_exists (DescribeResult.found status outs) = Except.ok true
    ∧ Event.createStack ∈ (cmd_deploy env).1
    ∧ Event.updateStack ∉ (cmd_deploy env).1 := by
  have hse : stack_exists env.describeRes = Except.ok false := by rw [henv]; rfl
  refine ⟨rfl, ?_, ?_, ?_⟩
  · simp [stack_exists, hst]
  · simp only [cmd_deploy, hse]
    cases env.createRes with
    | raised => simp
    | ok =>
      cases hw : wait_for_stack env.poll <;> simp [deployTail, hw]
  · simp only [cmd_deploy, hse]
    cases env.createRes with
    | raised => simp
    | ok =>
      cases hw : wait_for_stack env.poll <;>
        simp [deployTail, hw,
          not_mem_print_outputs env.finalDescribe Event.updateStack rfl,
          not_mem_print_status env.finalDescribe Event.updateStack rfl]

/-- Witness for C9: the `DELETE_COMPLETE` environment `envC9` with the other
status instantiated at `CREATE_COMPLETE`. -/
theorem stack_exists_delete_complete_witness :
    stack_exists (DescribeResult.found "DELETE_COMPLETE" []) = Except.ok false
    ∧ stack_exists (DescribeResult.found "CREATE_COMPLETE" []) = Except.ok true
    ∧ Event.createStack ∈ (cmd_deploy envC9).1
    ∧ Event.updateStack ∉ (cmd_deploy envC9).1 :=
  stack_exists_delete_complete "CREATE_COMPLETE" [] envC9 rfl (by decide)

/-- C1: a deploy whose existence check returns a boolean issues exactly one
mutating stack call — the update call (and not the create call) when the stack
exists, the create call (and not the update call) when it does not, and never
the delete call. -/
theorem deploy_issues_exactly_one_mutating_call (env : DeployEnv) (b : Bool)
    (h : stack_exists env.describeRes = Except.ok b) :
    (cmd_deploy env).1.count Event.createStack = (if b then 0 else 1)
    ∧ (cmd_deploy env).1.count Event.updateStack = (if b then 1 else 0)
    ∧ (cmd_deploy env).1.count Event.deleteStack = 0 := by
  have ho : ∀ e, isMutating e = true →
      List.count e (print_outputs env.finalDescribe) = 0 :=
    fun e he => List.count_eq_zero.mpr (not_mem_print_outputs env.finalDescribe e he)
  cases b with
  | true =>
    simp only [cmd_deploy, h]
    cases env.updateRes with
    | noUpdates =>
      refine ⟨?_, ?_, ?_⟩
      · simp +decide [List.count_cons, ho Event.createStack rfl]
      · simp +decide [List.count_cons, ho Event.updateStack rfl]
      · simp +decide [List.count_cons, ho Event.deleteStack rfl]
    | otherError => exact ⟨rfl, rfl, rfl⟩
    | ok =>
      refine ⟨?_, ?_, ?_⟩
      · rw [count_deployTail env [Event.updateStack] (wait_for_stack env.poll)
          Event.createStack rfl]
        rfl
      · rw [count_deployTail env [Event.updateStack] (wait_for_stack env.poll)
          Event.updateStack rfl]
        rfl
      · rw [count_deployTail env [Event.updateStack] (wait_for_stack env.poll)
          Event.deleteStack rfl]
        rfl
  | false =>
    simp only [cmd_deploy, h]
    cases env.createRes with
    | raised => exact ⟨rfl, rfl, rfl⟩
    | ok =>
      refine ⟨?_, ?_, ?_⟩
      · rw [count_deployTail env [Event.createStack] (wait_for_stack env.poll)
          Event.createStack rfl]
        rfl
      · rw [count_deployTail env [Event.createStack] (wait_for_stack env.poll)
          Event.updateStack rfl]
        rfl
      · rw [count_deployTail env [Event.createStack] (wait_for_stack env.poll)
          Event.deleteStack rfl]
        rfl

/-- Concrete deploy environment for an absent stack. -/
def envC1 : DeployEnv :=
  { describeRes := .notFoundError
    updateRes := .ok
    createRes := .ok
    poll := fun _ => .success
    finalDescribe := .found "CREATE_COMPLETE" [] }

/-- Witness for C1: deploying against an absent stack issues the create call
once and no update or delete call. -/
theorem deploy_issues_exactly_one_mutating_call_witness :
    (cmd_deploy envC1).1.count Event.createStack = 1
    ∧ (cmd_deploy envC1).1.count Event.updateStack = 0
    ∧ (cmd_deploy envC1).1.count Event.deleteStack = 0 := by
  have h := deploy_issues_exactly_one_mutating_call envC1 false rfl
  simpa using h

/-- C3: a deploy whose update call reports `No updates are to be performed`
resolves as success — the no-changes note and the outputs are printed, and the
command returns normally so the process exits 0. -/
theorem noop_update_is_success (env : DeployEnv)
    (hex : stack_exists env.describeRes = Except.ok true)
    (hup : env.updateRes = UpdateOutcome.noUpdates) :
    cmd_deploy env
      = ([Event.updateStack, Event.msgNoChanges] ++ print_outputs env.finalDescribe,
         Outcome.exited 0) := by
  simp [cmd_deploy, hex, hup]

/-- Concrete deploy environment with an up-to-date existing stack. -/
def envC3 : DeployEnv :=
  { describeRes := .found "CREATE_COMPLETE" []
    updateRes := .noUpdates
    createRes := .ok
    poll := fun _ => .pending
    finalDescribe := .found "UPDATE_COMPLETE" [("ReportDashboardURL", "https://example.test/dash")] }

/-- Witness for C3: the no-op update environment prints the outputs and exits
zero. -/
theorem noop_update_is_success_witness :
    cmd_deploy envC3
      = ([Event.updateStack, Event.msgNoChanges] ++ print_outputs envC3.finalDescribe,
         Outcome.exited 0) :=
  noop_update_is_success envC3 rfl rfl

/-- C6: the poll wait makes at most `MAX_ATTEMPTS = 120` attempts at a fixed
`POLL_DELAY = 10` second delay; when the remote status never reaches a
terminal value it stops after exactly the bound and reports failure, and on
deploy that failure exits the process with code 1. -/
theorem poll_wait_bounded (env : DeployEnv) (b : Bool)
    (hex : stack_exists env.describeRes = Except.ok b)
    (hu : env.updateRes = UpdateOutcome.ok)
    (hc : env.createRes = CallOutcome.ok)
    (hp : ∀ i, env.poll i = PollStatus.pending) :
    MAX_ATTEMPTS = 120 ∧ POLL_DELAY = 10
    ∧ (∀ s : Nat → PollStatus, waiterAttempts s ≤ MAX_ATTEMPTS)
    ∧ waiterAttempts env.poll = MAX_ATTEMPTS
    ∧ wait_for_stack env.poll = false
    ∧ (cmd_deploy env).2 = Outcome.exited 1 := by
  have hw : wait_for_stack env.poll = false := by
    simp [wait_for_stack, runWaiter_pending env.poll hp MAX_ATTEMPTS 0]
  refine ⟨rfl, rfl, ?_, ?_, hw, ?_⟩
  · intro s
    have h1 := runWaiter_attempts_le s MAX_ATTEMPTS 0
    simpa [waiterAttempts] using h1
  · simp [waiterAttempts, runWaiter_pending env.poll hp MAX_ATTEMPTS 0]
  · cases b with
    | true => simp [cmd_deploy, hex, hu, deployTail, hw]
    | false => simp [cmd_deploy, hex, hc, deployTail, hw]

/-- Concrete deploy environment whose stack status never becomes terminal. -/
def envC6 : DeployEnv :=
  { describeRes := .found "CREATE_COMPLETE" []
    updateRes := .ok
    createRes := .ok
    poll := fun _ => .pending
    finalDescribe := .found "UPDATE_IN_PROGRESS" [] }

/-- Witness for C6: with an eternally in-progress stack the waiter stops at
the 120-attempt bound and the deploy exits 1. -/
theorem poll_wait_bounded_witness :
    MAX_ATTEMPTS = 120 ∧ POLL_DELAY = 10
    ∧ (∀ s : Nat → PollStatus, waiterAttempts s ≤ MAX_ATTEMPTS)
    ∧ waiterAttempts envC6.poll = MAX_ATTEMPTS
    ∧ wait_for_stack envC6.poll = false
    ∧ (cmd_deploy envC6).2 = Outcome.exited 1 :=
  poll_wait_bounded envC6 true rfl rfl rfl (fun _ => rfl)

/-- Concrete delete environment given the confirmation input `"YES"`. -/
def envC2 : DeleteEnv :=
  { describeRes := .found "CREATE_COMPLETE" []
    confirmInput := "YES"
    cleanupDescribe := some []
    emptyFails := fun _ => false
    workgroupFails := false
    poll := fun _ => .success }

/-- C2 counterexample: the confirmation input `"YES"` is not the exact token
`"yes"`, yet the delete proceeds and `delete_stack` is called, because the
input is stripped and lowercased before the comparison. -/
theorem delete_exact_token_counterexample :
    "YES" ≠ "yes"
    ∧ Event.deleteStack ∈ (cmd_delete envC2).1
    ∧ (cmd_delete envC2).2 = Outcome.exited 0 := by
  refine ⟨by decide, by decide, rfl⟩

/-- C2 amended: on an existing stack, when the STRIPPED AND LOWERCASED
confirmation input differs from `"yes"`, no cleanup happens, `delete_stack`
is never called, only `Aborted.` is printed, and the process exits 0. -/
theorem delete_aborts_unless_normalized_yes (env : DeleteEnv)
    (hex : stack_exists env.describeRes = Except.ok true)
    (h : pyLower (pyStrip env.confirmInput) ≠ "yes") :
    cmd_delete env = ([Event.msgAborted], Outcome.exited 0) := by
  simp [cmd_delete, hex, h]

/-- Concrete delete environment given the confirmation input `"no"`. -/
def envC2a : DeleteEnv :=
  { describeRes := .found "CREATE_COMPLETE" []
    confirmInput := "no"
    cleanupDescribe := some []
    emptyFails := fun _ => false
    workgroupFails := false
    poll := fun _ => .success }

/-- Witness for the amended C2: the input `"no"` aborts the delete. -/
theorem delete_aborts_unless_normalized_yes_witness :
    cmd_delete envC2a = ([Event.msgAborted], Outcome.exited 0) :=
  delete_aborts_unless_normalized_yes envC2a rfl (by decide)

/-- C10: the confirmation input is normalized by stripping surrounding
whitespace and lowercasing; a normalized form equal to `"yes"` lets the
delete proceed to the `delete_stack` call, and any other normalized form
aborts with only the `Aborted.` message and exit code 0. -/
theorem delete_confirmation_normalization (env : DeleteEnv)
    (hex : stack_exists env.describeRes = Except.ok true) :
    (pyLower (pyStrip env.confirmInput) = "yes" →
        Event.deleteStack ∈ (cmd_delete env).1)
    ∧ (pyLower (pyStrip env.confirmInput) ≠ "yes" →
        cmd_delete env = ([Event.msgAborted], Outcome.exited 0)) := by
  constructor
  · intro hy
    cases hw : wait_for_stack env.poll <;> simp [cmd_delete, hex, hy, hw]
  · intro hn
    simp [cmd_delete, hex, hn]

/-- Concrete delete environment given the confirmation input `"  YES  "`. -/
def envC10 : DeleteEnv :=
  { describeRes := .found "UPDATE_COMPLETE" []
    confirmInput := "  YES  "
    cleanupDescribe := some [("ExportDataBucket", "data-bucket")]
    emptyFails := fun _ => false
    workgroupFails := false
    poll := fun _ => .failure }

/-- Witness for C10: the input `"  YES  "` normalizes to `"yes"` and the
delete call is issued. -/
theorem delete_confirmation_normalization_witness :
    Event.deleteStack ∈ (cmd_delete envC10).1 :=
  (delete_confirmation_normalization envC10 rfl).1 (by decide)

/-- C5: on a confirmed delete the cleanup steps are fault-isolated — whatever
the cleanup-time describe, the bucket-emptying calls and the workgroup call
do, the `delete_stack` call is still issued and the command exits 0; a raised
describe is caught and logged as a warning; a raised bucket-emptying call is
caught and logged as a warning; and when the describe succeeded with a truthy
`AthenaWorkgroup` output the workgroup deletion is attempted regardless of
the bucket-emptying outcome. -/
theorem delete_cleanup_fault_isolated (env : DeleteEnv)
    (outs : List (String × String)) (wg : String)
    (hex : stack_exists env.describeRes = Except.ok true)
    (hc : pyLower (pyStrip env.confirmInput) = "yes") :
    Event.deleteStack ∈ (cmd_delete env).1
    ∧ (cmd_delete env).2 = Outcome.exited 0
    ∧ (env.cleanupDescribe = none → Event.msgCleanupWarning ∈ (cmd_delete env).1)
    ∧ (env.cleanupDescribe = some outs →
        (emptyBuckets outs env.emptyFails
            ["ExportDataBucket", "AthenaResultsBucket"]).2 = false →
        Event.msgCleanupWarning ∈ (cmd_delete env).1)
    ∧ (env.cleanupDescribe = some outs →
        lookupTruthy outs "AthenaWorkgroup" = some wg →
        Event.deleteWorkGroup wg ∈ (cmd_delete env).1) := by
  have hmain : (cmd_delete env).1
      = cleanupBuckets env ++ cleanupWorkgroup env ++ [Event.deleteStack]
          ++ (if wait_for_stack env.poll then [Event.msgDeleteSuccess]
              else [Event.msgDeleteMaybeFailed])
      ∧ (cmd_delete env).2 = Outcome.exited 0 := by
    cases hw : wait_for_stack env.poll <;> simp [cmd_delete, hex, hc, hw]
  refine ⟨?_, hmain.2, ?_, ?_, ?_⟩
  · rw [hmain.1]; simp
  · intro hnone
    rw [hmain.1]
    have : Event.msgCleanupWarning ∈ cleanupBuckets env := by
      simp [cleanupBuckets, hnone]
    simp [List.mem_append, this]
  · intro hsome hfail
    rw [hmain.1]
    have : Event.msgCleanupWarning ∈ cleanupBuckets env := by
      simp [cleanupBuckets, hsome, hfail]
    simp [List.mem_append, this]
  · intro hsome hwg
    rw [hmain.1]
    have : Event.deleteWorkGroup wg ∈ cleanupWorkgroup env := by
      simp [cleanupWorkgroup, hsome, hwg]
    simp [List.mem_append, this]

/-- Concrete delete environment whose first bucket-emptying call raises and
whose outputs name an Athena workgroup. -/
def envC5 : DeleteEnv :=
  { describeRes := .found "CREATE_COMPLETE" []
    confirmInput := "yes"
    cleanupDescribe := some [("ExportDataBucket", "data-bucket"),
                             ("AthenaResultsBucket", "results-bucket"),
                             ("AthenaWorkgroup", "wg-1")]
    emptyFails := fun _ => true
    workgroupFails := false
    poll := fun _ => .success }

/-- Witness for C5: with the bucket-emptying step forced to fail, the warning
is logged, the workgroup deletion is still attempted, and `delete_stack` is
still issued with exit code 0. -/
theorem delete_cleanup_fault_isolated_witness :
    Event.deleteStack ∈ (cmd_delete envC5).1
    ∧ (cmd_delete envC5).2 = Outcome.exited 0
    ∧ Event.msgCleanupWarning ∈ (cmd_delete envC5).1
    ∧ Event.deleteWorkGroup "wg-1" ∈ (cmd_delete envC5).1 := by
  have h := delete_cleanup_fault_isolated envC5
    [("ExportDataBucket", "data-bucket"), ("AthenaResultsBucket", "results-bucket"),
     ("AthenaWorkgroup", "wg-1")] "wg-1" rfl (by decide)
  exact ⟨h.1, h.2.1, h.2.2.2.1 rfl (by decide), h.2.2.2.2 rfl (by decide)⟩

/-- The invocations of the BASE model (unguarded prelude and delete calls
succeeding) on which the program ends with a non-zero exit code: a
missing/invalid subcommand; a deploy whose existence check raises, whose
mutating call raises (other than a no-op update), or whose poll wait fails;
and a delete whose existence check raises. -/
def invExitsNonzero : Invocation → Prop
  | .badCommand => True
  | .deploy env =>
    stack_exists env.describeRes = Except.error ()
    ∨ (stack_exists env.describeRes = Except.ok true
        ∧ (env.updateRes = UpdateOutcome.otherError
            ∨ (env.updateRes = UpdateOutcome.ok ∧ wait_for_stack env.poll = false)))
    ∨ (stack_exists env.describeRes = Except.ok false
        ∧ (env.createRes = CallOutcome.raised
            ∨ (env.createRes = CallOutcome.ok ∧ wait_for_stack env.poll = false)))
  | .delete env => stack_exists env.describeRes = Except.error ()
  | .outputs _ => False
  | .status _ => False

/-- Exit-code characterization of the base model: helper for the full
characterization below, covering lines 182-216 of deploy and the delete
invocations whose `delete_stack` call succeeds. -/
lemma runMain_exit_base (inv : Invocation) :
    (exitCodeOf (runMain inv).2 = 0 ∨ exitCodeOf (runMain inv).2 = 1)
    ∧ (exitCodeOf (runMain inv).2 = 1 ↔ invExitsNonzero inv) := by
  cases inv with
  | badCommand => simp [runMain, exitCodeOf, invExitsNonzero]
  | outputs d => simp [runMain, exitCodeOf, invExitsNonzero]
  | status d => simp [runMain, exitCodeOf, invExitsNonzero]
  | delete env =>
    cases hse : stack_exists env.describeRes with
    | error u =>
      cases u
      simp [runMain, cmd_delete, hse, exitCodeOf, invExitsNonzero]
    | ok b =>
      cases b with
      | false => simp [runMain, cmd_delete, hse, exitCodeOf, invExitsNonzero]
      | true =>
        by_cases hc : pyLower (pyStrip env.confirmInput) = "yes"
        · cases hw : wait_for_stack env.poll <;>
            simp [runMain, cmd_delete, hse, hc, hw, exitCodeOf, invExitsNonzero]
        · simp [runMain, cmd_delete, hse, hc, exitCodeOf, invExitsNonzero]
  | deploy env =>
    cases hse : stack_exists env.describeRes with
    | error u =>
      cases u
      simp [runMain, cmd_deploy, hse, exitCodeOf, invExitsNonzero]
    | ok b =>
      cases b with
      | false =>
        cases hcr : env.createRes with
        | raised => simp [runMain, cmd_deploy, hse, hcr, exitCodeOf, invExitsNonzero]
        | ok =>
          cases hw : wait_for_stack env.poll <;>
            simp [runMain, cmd_deploy, hse, hcr, hw, deployTail, exitCodeOf, invExitsNonzero]
      | true =>
        cases hur : env.updateRes with
        | noUpdates => simp [runMain, cmd_deploy, hse, hur, exitCodeOf, invExitsNonzero]
        | otherError => simp [runMain, cmd_deploy, hse, hur, exitCodeOf, invExitsNonzero]
        | ok =>
          cases hw : wait_for_stack env.poll <;>
            simp [runMain, cmd_deploy, hse, hur, hw, deployTail, exitCodeOf, invExitsNonzero]

lemma deployPrelude_ok_iff (env : FullDeployEnv) :
    (deployPrelude env).2 = true ↔
      ¬(env.accountIdStagingRes = CallOutcome.raised
        ∨ (env.stagingHeadOk = false ∧ env.stagingCreateRes = CallOutcome.raised)
        ∨ env.uploadRes = CallOutcome.raised
        ∨ env.accountIdParamsRes = CallOutcome.raised) := by
  obtain ⟨base, a1, sh, sc, up, a2⟩ := env
  cases a1 <;> cases sh <;> cases sc <;> cases up <;> cases a2 <;>
    simp [deployPrelude, CallOutcome.isRaised]

/-- The invocations of the full model on which the program ends with a
non-zero exit code: a missing/invalid subcommand; a deploy with a raise in
its unguarded prelude (either account-id fetch, staging-bucket creation, the
template upload) or with a base-model failure (unhandled describe,
create/update raise other than a no-op update, or poll failure); and a
delete whose existence check raises or whose confirmed `delete_stack` call
raises. -/
def fullInvExitsNonzero : FullInvocation → Prop
  | .badCommand => True
  | .deploy env =>
    env.accountIdStagingRes = CallOutcome.raised
    ∨ (env.stagingHeadOk = false ∧ env.stagingCreateRes = CallOutcome.raised)
    ∨ env.uploadRes = CallOutcome.raised
    ∨ env.accountIdParamsRes = CallOutcome.raised
    ∨ invExitsNonzero (Invocation.deploy env.base)
  | .delete env =>
    stack_exists env.base.describeRes = Except.error ()
    ∨ (stack_exists env.base.describeRes = Except.ok true
        ∧ pyLower (pyStrip env.base.confirmInput) = "yes"
        ∧ env.deleteStackRes = CallOutcome.raised)
  | .outputs _ => False
  | .status _ => False

/-- Concrete full delete environment whose confirmed `delete_stack` call
raises. -/
def envC8f : FullDeleteEnv :=
  { base := { describeRes := .found "CREATE_COMPLETE" []
              confirmInput := "yes"
              cleanupDescribe := some []
              emptyFails := fun _ => false
              workgroupFails := false
              poll := fun _ => .success }
    deleteStackRes := .raised }

/-- C8 counterexample: a confirmed delete whose unguarded `cfn.delete_stack`
call raises issues the delete call and then ends in an uncaught exception
with exit code 1 — a failed delete exiting non-zero on a path that is
neither an invalid subcommand nor a deploy terminal failure, contradicting
both the claimed exact characterization and the claimed exit-0 outcome for
failed deletes. -/
theorem exit_policy_counterexample :
    Event.deleteStack ∈ (runMainFull (FullInvocation.delete envC8f)).1
    ∧ (runMainFull (FullInvocation.delete envC8f)).2 = Outcome.uncaught
    ∧ exitCodeOf (runMainFull (FullInvocation.delete envC8f)).2 = 1
    ∧ FullInvocation.delete envC8f ≠ FullInvocation.badCommand :=
  ⟨by decide, rfl, rfl, fun h => nomatch h⟩

/-- C8 amended: the exit code is always 0 or 1, and it is 1 exactly when the
subcommand is missing/invalid; or a deploy fails — an unhandled raise in its
prelude (account-id fetch, staging-bucket creation, template upload) or in
its describe/create/update calls (other than a no-op update), or a terminal
poll failure; or a delete's existence-check describe or its confirmed
`delete_stack` call raises an unhandled error. The handled paths — read-path
errors, aborted deletes, delete waiter failures, and no-op updates — print a
message and exit 0. -/
theorem exit_code_characterization_full (inv : FullInvocation) :
    (exitCodeOf (runMainFull inv).2 = 0 ∨ exitCodeOf (runMainFull inv).2 = 1)
    ∧ (exitCodeOf (runMainFull inv).2 = 1 ↔ fullInvExitsNonzero inv) := by
  cases inv with
  | badCommand => simp [runMainFull, exitCodeOf, fullInvExitsNonzero]
  | outputs d => simp [runMainFull, exitCodeOf, fullInvExitsNonzero]
  | status d => simp [runMainFull, exitCodeOf, fullInvExitsNonzero]
  | delete env =>
    cases hse : stack_exists env.base.describeRes with
    | error u =>
      cases u
      simp [runMainFull, cmd_delete_full, hse, exitCodeOf, fullInvExitsNonzero]
    | ok b =>
      cases b with
      | false => simp [runMainFull, cmd_delete_full, hse, exitCodeOf, fullInvExitsNonzero]
      | true =>
        by_cases hc : pyLower (pyStrip env.base.confirmInput) = "yes"
        · cases hdr : env.deleteStackRes with
          | raised =>
            simp [runMainFull, cmd_delete_full, hse, hc, hdr, exitCodeOf, fullInvExitsNonzero]
          | ok =>
            cases hw : wait_for_stack env.base.poll <;>
              simp [runMainFull, cmd_delete_full, hse, hc, hdr, hw, exitCodeOf,
                fullInvExitsNonzero]
        · simp [runMainFull, cmd_delete_full, hse, hc, exitCodeOf, fullInvExitsNonzero]
  | deploy env =>
    by_cases hp : (deployPrelude env).2 = true
    · have hb := runMain_exit_base (Invocation.deploy env.base)
      simp only [runMain] at hb
      have hpre := (deployPrelude_ok_iff env).mp hp
      have h2 : (runMainFull (FullInvocation.deploy env)).2 = (cmd_deploy env.base).2 := by
        simp [runMainFull, cmd_deploy_full, hp]
      rw [h2]
      refine ⟨hb.1, ?_⟩
      rw [hb.2]
      simp only [fullInvExitsNonzero]
      constructor
      · intro h
        exact Or.inr (Or.inr (Or.inr (Or.inr h)))
      · intro h
        rcases h with h | h | h | h | h
        · exact absurd (Or.inl h) hpre
        · exact absurd (Or.inr (Or.inl h)) hpre
        · exact absurd (Or.inr (Or.inr (Or.inl h))) hpre
        · exact absurd (Or.inr (Or.inr (Or.inr h))) hpre
        · exact h
    · have hp2 : (deployPrelude env).2 = false := by
        cases hq : (deployPrelude env).2 with
        | false => rfl
        | true => exact absurd hq hp
      have hpre : env.accountIdStagingRes = CallOutcome.raised
          ∨ (env.stagingHeadOk = false ∧ env.stagingCreateRes = CallOutcome.raised)
          ∨ env.uploadRes = CallOutcome.raised
          ∨ env.accountIdParamsRes = CallOutcome.raised := by
        by_contra hno
        exact hp ((deployPrelude_ok_iff env).mpr hno)
      have h2 : runMainFull (FullInvocation.deploy env)
          = ((deployPrelude env).1, Outcome.uncaught) := by
        simp [runMainFull, cmd_deploy_full, hp2]
      rw [h2]
      refine ⟨Or.inr rfl, ?_⟩
      constructor
      · intro _
        simp only [fullInvExitsNonzero]
        rcases hpre with h | h | h | h
        · exact Or.inl h
        · exact Or.inr (Or.inl h)
        · exact Or.inr (Or.inr (Or.inl h))
        · exact Or.inr (Or.inr (Or.inr (Or.inl h)))
      · intro _
        rfl

end DeployPy
